import Mathlib

/-!
Verification of the conversation-turn orchestrator, retry executor, tool
dispatcher and streaming transport of the personal-website repository
(`api/chat.ts`, `api/hardcover.ts`, client `sendMessageToAPI`).

The TypeScript is shallowly embedded: pure computations become Lean
functions, the LLM provider / tool backends become oracle parameters
(`Nat → Except JsError LLMResponse`, `ToolUse → Except String String`),
and duck-typed JavaScript error values become a structure of optional
fields.  Machine `number`s that matter only as exact delays are modelled
as `ℚ`; array indices and counts as `Nat`.  The retry executor is
instrumented with an explicit invocation counter (the second component of
its result); delays/sleeps have no behavioural effect on the results and
are modelled separately by `calculateDelay`.
-/

namespace Site

/-- The apostrophe character, used by the raw season labels ("24-'25"). -/
def apos : Char := Char.ofNat 39

/-- Substring test on lists of characters (prefix test helper). -/
def listStartsWith : List Char → List Char → Bool
  | [], _ => true
  | _ :: _, [] => false
  | a :: as, b :: bs => a = b && listStartsWith as bs

/-- JavaScript `String.prototype.includes`: `pat` occurs somewhere in `hay`. -/
def listIncludes (pat : List Char) : List Char → Bool
  | [] => listStartsWith pat []
  | c :: rest => listStartsWith pat (c :: rest) || listIncludes pat rest

/-- `hay.includes(pat)` for Lean strings. -/
def strIncludes (hay pat : String) : Bool := listIncludes pat.toList hay.toList

/-- `m?.includes(pat)` — optional chaining on a possibly-absent message. -/
def strIncludesOpt (m : Option String) (pat : String) : Bool :=
  match m with
  | some s => strIncludes s pat
  | none => false

/--
A duck-typed JavaScript error value as read by the two retry classifiers:
`status`, `response?.status`, `code` and `message` may each be absent, and
the value may or may not be a `TypeError` instance (`instanceof TypeError`).
-/
structure JsError where
  status : Option Nat
  responseStatus : Option Nat
  code : Option String
  message : Option String
  isTypeError : Bool
deriving DecidableEq

/-- JavaScript `a || b` on the two status reads (`0` and `undefined` are
falsy, so a present-but-zero `status` falls through to `response?.status`). -/
def jsOr (a b : Option Nat) : Option Nat :=
  match a with
  | some s => if s = 0 then b else some s
  | none => b

/-- The trailing network-error checks of the default classifier
(`api/hardcover.ts` lines 413-418). -/
def networkErrorRetry (error : JsError) : Bool :=
  error.code == some "ECONNRESET" ||
  error.code == some "ETIMEDOUT" ||
  error.code == some "ENOTFOUND" ||
  strIncludesOpt error.message "timeout" ||
  strIncludesOpt error.message "network"

/-- `DEFAULT_OPTIONS.shouldRetry` (`api/hardcover.ts` lines 400-419):
fetch `TypeError`s first, then HTTP status classes, then network codes. -/
def defaultShouldRetry (error : JsError) : Bool :=
  if error.isTypeError && strIncludesOpt error.message "fetch" then true
  else
    match jsOr error.status error.responseStatus with
    | some s =>
      if s = 0 then networkErrorRetry error
      else decide (500 ≤ s) || s == 429 || s == 503
    | none => networkErrorRetry error

/-- The `shouldRetry` closure the chat handler passes for both LLM calls
(`api/chat.ts` lines 1314-1324 and 1955-1965): 401/403 are never retried,
529/5xx and "overloaded" messages are. -/
def chatShouldRetry (error : JsError) : Bool :=
  if error.status == some 401 || error.status == some 403 then false
  else
    (match error.status with
     | some s => s == 529 || decide (500 ≤ s)
     | none => false) ||
    strIncludesOpt error.message "overloaded" ||
    strIncludesOpt error.message "Overloaded"

/--
The attempt loop of `retryWithBackoff` (`api/hardcover.ts` lines 460-496),
with the operation modelled as the outcome of its k-th invocation and an
explicit invocation counter.  `remaining` is `maxRetries - attempt`; the
source breaks on exhaustion before consulting `shouldRetry`, exactly as the
second `match` below does.  Sleeping between attempts does not change
results and is elided.
-/
def retryLoop {E A : Type} (fn : Nat → Except E A) (shouldRetry : E → Nat → Bool) :
    Nat → Nat → Except E A × Nat
  | remaining, idx =>
    match fn idx with
    | .ok a => (.ok a, 1)
    | .error e =>
      match remaining with
      | 0 => (.error e, 1)
      | r + 1 =>
        if shouldRetry e (idx + 1) then
          let p := retryLoop fn shouldRetry r (idx + 1)
          (p.1, p.2 + 1)
        else (.error e, 1)

/-- `retryWithBackoff(fn, options)`: run the attempt loop from attempt 0.
Returns the final outcome together with how many times `fn` was invoked. -/
def retryWithBackoff {E A : Type} (fn : Nat → Except E A)
    (shouldRetry : E → Nat → Bool) (maxRetries : Nat) : Except E A × Nat :=
  retryLoop fn shouldRetry maxRetries 0

/-- The numeric fields of `RetryOptions` (`api/hardcover.ts` lines 374-389),
with exact rationals standing for the JavaScript numbers. -/
structure RetryOptions where
  maxRetries : Nat
  initialDelay : ℚ
  maxDelay : ℚ
  backoffMultiplier : ℚ
  jitter : ℚ

/-- `calculateDelay(attempt, options)` (`api/hardcover.ts` lines 425-432).
`rand` stands for the `Math.random()` draw in `[0,1)`; the source perturbs
the capped delay by `cappedDelay * jitter * (rand * 2 - 1)` and floors the
sum at zero. -/
def calculateDelay (attempt : Nat) (options : RetryOptions) (rand : ℚ) : ℚ :=
  let exponentialDelay := options.initialDelay * options.backoffMultiplier ^ (attempt - 1)
  let cappedDelay := min exponentialDelay options.maxDelay
  let jitterAmount := cappedDelay * options.jitter * (rand * 2 - 1)
  max 0 (cappedDelay + jitterAmount)

/-- Numeric value of a digit character (as `parseInt` sees one digit). -/
def digitVal (c : Char) : Nat := c.toNat - 48

/-- `parseInt` on a non-empty string of decimal digits. -/
def digitsToNat (l : List Char) : Nat := l.foldl (fun n c => 10 * n + digitVal c) 0

/--
Try to match the regex `(\d+)-'(\d+)` at the start of `l`, returning the two
capture groups.  `\d+` is greedy and — since `-` is not a digit — the
maximal digit run is exactly what the backtracking regex engine commits to,
so `takeWhile` is faithful here.
-/
def matchSeasonAt (l : List Char) : Option (List Char × List Char) :=
  let d1 := l.takeWhile Char.isDigit
  if d1.isEmpty then none
  else
    match l.drop d1.length with
    | '-' :: c :: rest =>
      if c == apos then
        let d2 := rest.takeWhile Char.isDigit
        if d2.isEmpty then none else some (d1, d2)
      else none
    | _ => none

/-- Leftmost match of `(\d+)-'(\d+)` in `l` (JS `String.prototype.match`
scans start positions left to right). -/
def findSeasonMatch : List Char → Option (List Char × List Char)
  | [] => none
  | c :: rest =>
    match matchSeasonAt (c :: rest) with
    | some m => some m
    | none => findSeasonMatch rest

/--
Season-label normalization from `parseSnowboardingData` (`api/chat.ts`
lines 1071-1080): if the label contains an apostrophe and matches
`(\d+)-'(\d+)`, rebuild it as `` `20${parseInt(m1)}-${parseInt(m2)}` ``
(template-literal stringification of the parsed numbers); otherwise the
label is kept unchanged.
-/
def normalizeSeason (season : String) : String :=
  if season.toList.contains apos then
    match findSeasonMatch season.toList with
    | some (d1, d2) =>
      "20" ++ Nat.repr (digitsToNat d1) ++ "-" ++ Nat.repr (digitsToNat d2)
    | none => season
  else season

/-- The digit character for `d` (used to quantify over two-digit labels). -/
def digitChar (d : Fin 10) : Char := Char.ofNat (48 + d.val)

/-- The raw label `"05-'06"`. -/
def season0506 : String := String.mk ['0', '5', '-', apos, '0', '6']

/-- The raw label `"24-'25"`. -/
def season2425 : String := String.mk ['2', '4', '-', apos, '2', '5']

/-- One chat message `{role, content}`. -/
structure ChatMessage where
  role : String
  content : String
deriving DecidableEq

/-- JavaScript `arr.slice(-10)`: the last (at most) ten elements. -/
def sliceLast10 {α : Type} (l : List α) : List α := l.drop (l.length - 10)

/-- The client's `messages` field: `[...messages, userMessage].slice(-10)`
(client `sendMessageToAPI`, the fetch body). -/
def recentMessages (clientMessages : List ChatMessage) (userMessage : ChatMessage) :
    List ChatMessage :=
  sliceLast10 (clientMessages ++ [userMessage])

/-- The client's `conversationHistory` field: `messages.slice(-10)`. -/
def conversationHistorySent (clientMessages : List ChatMessage) : List ChatMessage :=
  sliceLast10 clientMessages

/-- The server's `allMessages = [...conversationHistory, ...messages]`
(`api/chat.ts` line 1269), as produced for a client turn. -/
def allMessages (clientMessages : List ChatMessage) (userMessage : ChatMessage) :
    List ChatMessage :=
  conversationHistorySent clientMessages ++ recentMessages clientMessages userMessage

/-- Ten distinct prior client messages. -/
def tenMessages : List ChatMessage :=
  (List.range 10).map fun i => ⟨"user", Nat.repr i⟩

/-- The newest user message for the C9 counterexample. -/
def newUserMessage : ChatMessage := ⟨"user", "new"⟩

/-- A `tool_use` block's identity: its call id and tool name. -/
structure ToolUse where
  id : String
  name : String
deriving DecidableEq

/-- One block of an LLM response: free text or a tool-call request. -/
inductive ContentBlock where
  | text (s : String)
  | toolUse (tu : ToolUse)
deriving DecidableEq

/-- An LLM response is its `content` array. -/
abbrev LLMResponse := List ContentBlock

/-- A dispatcher result `{tool_use_id, content}` as pushed onto
`toolResults` (`api/chat.ts` line 1922). -/
structure ToolResult where
  tool_use_id : String
  content : String
deriving DecidableEq

/-- A `tool_result` block of the follow-up request
(`api/chat.ts` lines 1944-1949). -/
structure ToolResultBlock where
  tool_use_id : String
  content : String
  is_error : Bool
deriving DecidableEq

/--
One iteration of the dispatcher loop (`api/chat.ts` lines 1433-1923): the
per-tool handler bodies perform network work and are abstracted as the
oracle `exec`; the enclosing `try`/`catch` converts a thrown exception into
the descriptive result `` `Error: ${error.message}` `` (lines 1915-1920).
-/
def dispatchToolCall (exec : ToolUse → Except String String) (tc : ToolUse) : ToolResult :=
  match exec tc with
  | .ok content => ⟨tc.id, content⟩
  | .error msg => ⟨tc.id, "Error: " ++ msg⟩

/-- The follow-up call's `tool_result` content blocks: every result is sent
with a hard-coded `is_error: false` (`api/chat.ts` line 1948). -/
def toolResultBlocks (results : List ToolResult) : List ToolResultBlock :=
  results.map fun tr => ⟨tr.tool_use_id, tr.content, false⟩

/-- `response.content.filter(item => item.type === 'tool_use')`. -/
def toolCallsOf (resp : LLMResponse) : List ToolUse :=
  resp.filterMap fun b =>
    match b with
    | .toolUse tu => some tu
    | .text _ => none

/-- Whether a block is a text block. -/
def isTextBlock : ContentBlock → Bool
  | .text _ => true
  | .toolUse _ => false

/-- `content.find(item => item.type === 'text')`, projected to its text. -/
def firstTextBlock (resp : LLMResponse) : Option String :=
  resp.findSome? fun b =>
    match b with
    | .text s => some s
    | .toolUse _ => none

/-- `content.find(item => item.text)`: the first block whose `text` field is
truthy (tool-use blocks have no `text`; the empty string is falsy). -/
def firstTruthyText (resp : LLMResponse) : Option String :=
  resp.findSome? fun b =>
    match b with
    | .text s => if s = "" then none else some s
    | .toolUse _ => none

/-- JavaScript `String.prototype.trim`: strip leading and trailing
whitespace (computable model of `.trim()`). -/
def jsTrim (s : String) : String :=
  String.mk (((s.toList.dropWhile Char.isWhitespace).reverse.dropWhile
    Char.isWhitespace).reverse)

/-- The fixed fallback apology substituted for empty output. -/
def fallbackMessage : String :=
  "I encountered an issue processing your request. Please try again."

/--
Extraction of the final text from the follow-up response (`api/chat.ts`
lines 1988-2001): take the first text block when its text is truthy with a
truthy trim, otherwise any block with truthy text, otherwise the fallback.
An absent or empty `content` array lands in the same fallback (line 1990).
-/
def extractFollowUpText (fu : LLMResponse) : String :=
  match firstTextBlock fu with
  | some s =>
    if s ≠ "" ∧ jsTrim s ≠ "" then s
    else (firstTruthyText fu).getD fallbackMessage
  | none => (firstTruthyText fu).getD fallbackMessage

/-- The no-tool-call branch (`api/chat.ts` lines 1427-1429 and 2002-2008):
the text of `content[0]` when it is a text block, else the fallback. -/
def extractFirstText (resp : LLMResponse) : String :=
  match resp.head? with
  | some (.text s) => s
  | _ => fallbackMessage

/-- The observable outcome of one orchestrated turn. -/
structure TurnOutcome where
  finalContent : String
  toolResults : List ToolResult
  llmCalls : Nat
deriving DecidableEq

/--
The orchestrator's successful control path (`api/chat.ts` lines 1424-2009):
call the LLM (`llm 0`); with no tool calls the turn is complete after one
call; with tool calls, dispatch them all and issue exactly one follow-up
call (`llm 1`), surfacing only the follow-up's text.  `llmCalls` counts the
provider invocations the path performs.
-/
def runTurn (llm : Nat → LLMResponse) (exec : ToolUse → Except String String) :
    TurnOutcome :=
  let response := llm 0
  let toolCalls := toolCallsOf response
  if toolCalls.isEmpty then
    ⟨extractFirstText response, [], 1⟩
  else
    let results := toolCalls.map (dispatchToolCall exec)
    let followUp := llm 1
    ⟨extractFollowUpText followUp, results, 2⟩

/-- The final guard (`api/chat.ts` lines 2011-2015):
`if (!finalContent || finalContent.trim() === '')` substitute the fallback. -/
def guardContent (s : String) : String :=
  if s = "" ∨ jsTrim s = "" then fallbackMessage else s

/-- The message the orchestrator actually returns for a successful turn. -/
def finalMessage (llm : Nat → LLMResponse) (exec : ToolUse → Except String String) :
    String :=
  guardContent (runTurn llm exec).finalContent

/-- The content of one message in a provider API request: plain text (a
history turn), the assistant content blocks (the original response echoed
back), or a list of `tool_result` blocks. -/
inductive MessageContent where
  | plain (s : String)
  | blocks (bs : List ContentBlock)
  | toolResultsContent (bs : List ToolResultBlock)
deriving DecidableEq

/-- One message of a provider API request. -/
structure ApiMessage where
  role : String
  content : MessageContent
deriving DecidableEq

/-- The `messages` array of the follow-up LLM call (`api/chat.ts` lines
1933-1951): the conversation history, then the original assistant
response (`response.content` verbatim), then one user message carrying
every ToolResult as a `tool_result` block (with the hard-coded
`is_error: false` of line 1948). -/
def followUpMessages (history : List ChatMessage) (response : LLMResponse)
    (results : List ToolResult) : List ApiMessage :=
  (history.map fun m => ⟨m.role, .plain m.content⟩) ++
    [⟨"assistant", .blocks response⟩,
     ⟨"user", .toolResultsContent (toolResultBlocks results)⟩]

/-- The follow-up request as the orchestrator builds it from a first
response `resp`: the results attached are those of dispatching exactly the
tool calls `resp` requested. -/
def followUpRequest (history : List ChatMessage) (resp : LLMResponse)
    (exec : ToolUse → Except String String) : List ApiMessage :=
  followUpMessages history resp ((toolCallsOf resp).map (dispatchToolCall exec))

/-- An SSE frame tag written by `sendSSEEvent` (payloads do not affect the
frame-ordering contract and are elided). -/
inductive Frame where
  | planning
  | response
  | done
  | error
deriving DecidableEq

/-- The overload test the handler applies to a failed LLM call
(`api/chat.ts` lines 1328 and 1969 and 2055). -/
def isOverloaded (e : JsError) : Bool :=
  e.status == some 529 ||
  strIncludesOpt e.message "overloaded" ||
  strIncludesOpt e.message "Overloaded"

/-- An LLM call as the handler performs it: `retryWithBackoff` with
`maxRetries: 3` and the handler's `shouldRetry` closure. -/
def chatRetry (attempts : Nat → Except JsError LLMResponse) :
    Except JsError LLMResponse × Nat :=
  retryWithBackoff attempts (fun e _ => chatShouldRetry e) 3

/--
The environment one request runs against: configuration, delivery mode,
the outcome of each attempt of the two LLM calls, the tool backends, and
the outcome of the planning-statement regex test on the first response's
text (`api/chat.ts` lines 1405-1406; the regex itself only gates whether a
planning frame is emitted on the no-tool-call path, so its boolean outcome
is taken as part of the environment).
-/
structure HandlerEnv where
  apiKeyConfigured : Bool
  streaming : Bool
  firstAttempts : Nat → Except JsError LLMResponse
  followUpAttempts : Nat → Except JsError LLMResponse
  exec : ToolUse → Except String String
  planningRegexMatches : Bool

/-- What the handler sends back: the ordered SSE frames it wrote, and the
HTTP status of a buffered JSON response when it ended with one instead. -/
structure HandlerOutput where
  frames : List Frame
  bufferedStatus : Option Nat
deriving DecidableEq

/-- Truthiness of `textContent && textContent.text` on the first response. -/
def planningTextPresent (resp : LLMResponse) : Bool :=
  match firstTextBlock resp with
  | some s => s != ""
  | none => false

/--
The chat handler's emission behaviour (`api/chat.ts` lines 1250-2084),
path by path:
* missing API key: streamed `error` frame, or buffered 500 (lines 1253-1266);
* first LLM call fails after retries: the overload catch returns a buffered
  503 without consulting `useStreaming` (lines 1326-1336); other errors are
  rethrown into the outer catch (lines 2051-2083);
* empty first response: `error` frame / buffered 500 (lines 1343-1356);
* tool calls present: a `planning` frame is always emitted when streaming
  (lines 1363-1402), tools run (no frames), then the follow-up call, whose
  failure paths do honour `useStreaming` (lines 1967-1985);
* no tool calls: a `planning` frame only if the first text is truthy and
  the planning regex matches (lines 1403-1421);
* success: `response` then `done`, or a buffered 200 (lines 2030-2050).
-/
def runHandler (env : HandlerEnv) : HandlerOutput :=
  if !env.apiKeyConfigured then
    if env.streaming then ⟨[.error], none⟩ else ⟨[], some 500⟩
  else
    match (chatRetry env.firstAttempts).1 with
    | .error e =>
      if isOverloaded e then ⟨[], some 503⟩
      else if env.streaming then ⟨[.error], none⟩ else ⟨[], some 500⟩
    | .ok response =>
      if response.isEmpty then
        if env.streaming then ⟨[.error], none⟩ else ⟨[], some 500⟩
      else
        let toolCalls := toolCallsOf response
        if !toolCalls.isEmpty then
          let planningFrames : List Frame := if env.streaming then [.planning] else []
          match (chatRetry env.followUpAttempts).1 with
          | .error e =>
            if isOverloaded e then
              if env.streaming then ⟨planningFrames ++ [.error], none⟩
              else ⟨[], some 503⟩
            else
              if env.streaming then ⟨planningFrames ++ [.error], none⟩
              else ⟨[], some 500⟩
          | .ok _ =>
            if env.streaming then ⟨planningFrames ++ [.response, .done], none⟩
            else ⟨[], some 200⟩
        else
          let planningFrames : List Frame :=
            if env.streaming && planningTextPresent response && env.planningRegexMatches
            then [.planning] else []
          if env.streaming then ⟨planningFrames ++ [.response, .done], none⟩
          else ⟨[], some 200⟩

/-- A provider-overload error (HTTP 529, "Overloaded"). -/
def overloadedError : JsError :=
  ⟨some 529, none, none, some "Overloaded", false⟩

/-- A streamed request whose first LLM call fails overloaded on every
attempt, exhausting the retry budget. -/
def c1FailEnv : HandlerEnv :=
  ⟨true, true, fun _ => .error overloadedError,
   fun _ => .ok [.text "ok"], fun _ => .ok "ok", false⟩

/-- One row of the seasonal (snowboarding) record:
`{date, location, season, days}`. -/
structure SnowEntry where
  date : String
  location : String
  season : String
  days : Nat
deriving DecidableEq

/-- Canonical decimal numeral: non-empty, all digits, and no leading zero
unless the string is exactly `"0"`. -/
def isCanonicalDigits : List Char → Bool
  | [] => false
  | [c] => c.isDigit
  | c :: rest => c.isDigit && c != '0' && rest.all Char.isDigit

/-- An ECMAScript array-index property key: the canonical numeral of some
`n` with `n < 2^32 - 1`.  Such keys are enumerated in ascending numeric
order by `Object.entries`, before all other keys. -/
def isArrayIndex (s : String) : Bool :=
  isCanonicalDigits s.toList && digitsToNat s.toList < 4294967295

/-- `locationCount[loc] = (locationCount[loc] || 0) + 1` on an assoc-list
model of the JS object: bump the (unique) existing entry or append. -/
def bumpCount : List (String × Nat) → String → List (String × Nat)
  | [], loc => [(loc, 1)]
  | (k, v) :: rest, loc =>
    if k = loc then (k, v + 1) :: rest else (k, v) :: bumpCount rest loc

/-- The `locationCount` object after the `seasonEntries.forEach` loop
(`api/chat.ts` lines 1503-1506), keyed in insertion order. -/
def buildCounts (locs : List String) : List (String × Nat) :=
  locs.foldl bumpCount []

/-- Insert in ascending numeric-key order (array-index keys are distinct,
so ties cannot occur). -/
def insertAscByKey (x : String × Nat) : List (String × Nat) → List (String × Nat)
  | [] => [x]
  | y :: ys =>
    if digitsToNat x.1.toList ≤ digitsToNat y.1.toList then x :: y :: ys
    else y :: insertAscByKey x ys

/-- Sort pairs ascending by numeric key value. -/
def sortAscByKey (l : List (String × Nat)) : List (String × Nat) :=
  l.foldr insertAscByKey []

/-- `Object.entries(locationCount)`: ECMAScript own-property order — the
array-index keys ascending numerically, then the remaining keys in
insertion order. -/
def jsObjectEntries (l : List (String × Nat)) : List (String × Nat) :=
  sortAscByKey (l.filter fun kv => isArrayIndex kv.1) ++
    l.filter fun kv => !isArrayIndex kv.1

/-- Stable insertion step for the descending-count sort: keep `x` before
every later element whose count does not exceed `x`'s. -/
def insertDescByCount (x : String × Nat) : List (String × Nat) → List (String × Nat)
  | [] => [x]
  | y :: ys =>
    if y.2 ≤ x.2 then x :: y :: ys else y :: insertDescByCount x ys

/-- `sort((a, b) => b[1] - a[1])`: ECMAScript sorts are stable, and this
insertion sort produces exactly the stable descending-by-count ordering. -/
def sortByCountDesc : List (String × Nat) → List (String × Nat)
  | [] => []
  | x :: xs => insertDescByCount x (sortByCountDesc xs)

/-- The `most_common_location` metric (`api/chat.ts` lines 1501-1519):
count per location, enumerate the object, sort by count descending, and
take the first entry (`none` when there are no entries). -/
def mostCommonLocation (entries : List SnowEntry) : Option (String × Nat) :=
  (sortByCountDesc (jsObjectEntries (buildCounts (entries.map SnowEntry.location)))).head?

/-- Locations in order of first encounter (each location once). -/
def firstOccurrences : List String → List String
  | [] => []
  | l :: rest => l :: (firstOccurrences rest).filter fun x => x ≠ l

/-- The first element attaining the maximal value of `f` (ties go to the
earlier element). -/
def firstMaxBy {α : Type} (f : α → Nat) : List α → Option α
  | [] => none
  | a :: rest =>
    match firstMaxBy f rest with
    | none => some a
    | some b => if f a < f b then some b else some a

/-- Modelled from the claim's words, for comparison with the code: the
location with the greatest occurrence count, ties broken in favour of the
location first encountered in entry order, together with its count. -/
def specMostFrequentLocation (entries : List SnowEntry) : Option (String × Nat) :=
  let locs := entries.map SnowEntry.location
  (firstMaxBy (fun l => locs.count l) (firstOccurrences locs)).map
    fun l => (l, locs.count l)

/-- The "table" shape of the count object: first-encounter key order with
the occurrence counts (what `buildCounts` is proved to equal). -/
def countTable (locs : List String) : List (String × Nat) :=
  (firstOccurrences locs).map fun l => (l, locs.count l)

/-- Entries with numeric-string location names `"2"` then `"1"`. -/
def numericLocEntries : List SnowEntry :=
  [⟨"d1", "2", "2024-25", 1⟩, ⟨"d2", "1", "2024-25", 2⟩]

/-- The spec's example entries `[(d1,"A"),(d2,"B"),(d3,"A")]`. -/
def exampleABA : List SnowEntry :=
  [⟨"d1", "A", "2024-25", 1⟩, ⟨"d2", "B", "2024-25", 2⟩, ⟨"d3", "A", "2024-25", 3⟩]

/-- A fetch `TypeError` that also carries HTTP status 401 (a value the
duck-typed classifier can legally receive). -/
def fetchTypeError401 : JsError := ⟨some 401, none, none, some "fetch failed", true⟩

/-- A plain HTTP 401 error object. -/
def plainAuthError401 : JsError := ⟨some 401, none, none, some "unauthorized", false⟩

/-- A tool backend that always throws. -/
def failExec : ToolUse → Except String String := fun _ => .error "boom"

/-- A single requested tool call. -/
def oneToolCall : List ToolUse := [⟨"t1", "get_music_data"⟩]

/-- An LLM that answers with whitespace-only text and no tool calls. -/
def blankLLM : Nat → LLMResponse := fun _ => [.text "   "]

/-- A tool backend that always succeeds. -/
def okExec : ToolUse → Except String String := fun _ => .ok "ok"

/-- A first response with one tool call, then a follow-up that carries text
and requests a further (ignored) tool call. -/
def llmA : Nat → LLMResponse := fun n =>
  match n with
  | 0 => [.toolUse ⟨"t1", "get_about_info"⟩]
  | _ => [.text "About Jeremy", .toolUse ⟨"t2", "get_music_data"⟩]

/-- An oracle that agrees with `llmA` on the first two calls only. -/
def llmB : Nat → LLMResponse := fun n => if n ≤ 1 then llmA n else [.text "extra"]

/-- A tool backend returning a fixed document. -/
def aboutExec : ToolUse → Except String String := fun _ => .ok "About document"

/-- The default retry options of `api/hardcover.ts` lines 394-399
(`maxRetries: 3, initialDelay: 1000, maxDelay: 10000, backoffMultiplier: 2,
jitter: 0.1`). -/
def defaultRetryOptions : RetryOptions := ⟨3, 1000, 10000, 2, 1 / 10⟩

/-! ### Retry executor -/

/-- The attempt loop always invokes the operation at least once. -/
theorem retryLoop_count_pos {E A : Type} (fn : Nat → Except E A)
    (sr : E → Nat → Bool) : ∀ r idx, 1 ≤ (retryLoop fn sr r idx).2 := by
  intro r idx
  unfold retryLoop
  cases h : fn idx <;> simp [h]
  split
  · simp
  · split <;> simp

/-- Core invariant of the attempt loop: starting at attempt `idx` with `r`
retries left, at most `r + 1` further invocations happen, and an error
outcome is exactly the error of the last invocation performed. -/
theorem retryLoop_spec {E A : Type} (fn : Nat → Except E A)
    (sr : E → Nat → Bool) :
    ∀ r idx, (retryLoop fn sr r idx).2 ≤ r + 1 ∧
      ∀ e, (retryLoop fn sr r idx).1 = .error e →
        fn (idx + (retryLoop fn sr r idx).2 - 1) = .error e := by
  intro r
  induction r with
  | zero =>
    intro idx
    unfold retryLoop
    cases h : fn idx with
    | ok a => simp
    | error e => simpa using h
  | succ n ih =>
    intro idx
    unfold retryLoop
    cases h : fn idx with
    | ok a => simp
    | error e =>
      by_cases hsr : sr e (idx + 1)
      · simp only [hsr, if_true]
        obtain ⟨ih1, ih2⟩ := ih (idx + 1)
        constructor
        · simpa using Nat.add_le_add_right ih1 1
        · intro e2 he2
          have hrec := ih2 e2 he2
          have hidx : idx + ((retryLoop fn sr n (idx + 1)).2 + 1) - 1 =
              idx + 1 + (retryLoop fn sr n (idx + 1)).2 - 1 := by omega
          simpa [hidx] using hrec
      · simpa [hsr] using h

/-- C3: `retryWithBackoff` invokes the wrapped operation at most
`maxRetries + 1` times — once initially plus at most `maxRetries` extra
attempts — and when it fails it propagates the error of the last
invocation performed. -/
theorem retryWithBackoff_attempt_bound {E A : Type} (fn : Nat → Except E A)
    (shouldRetry : E → Nat → Bool) (maxRetries : Nat) :
    (retryWithBackoff fn shouldRetry maxRetries).2 ≤ maxRetries + 1 ∧
      ∀ e, (retryWithBackoff fn shouldRetry maxRetries).1 = .error e →
        fn ((retryWithBackoff fn shouldRetry maxRetries).2 - 1) = .error e := by
  have h := retryLoop_spec fn shouldRetry maxRetries 0
  simpa [retryWithBackoff] using h

/-- C3 witness: a concrete always-failing operation with `maxRetries = 2`
is invoked at most three times and its last error comes back. -/
theorem retryWithBackoff_attempt_bound_witness :
    (retryWithBackoff (fun _ => (Except.error "boom" : Except String Unit))
        (fun _ _ => true) 2).2 ≤ 3 ∧
      (fun _ => (Except.error "boom" : Except String Unit))
          ((retryWithBackoff (fun _ => (Except.error "boom" : Except String Unit))
              (fun _ _ => true) 2).2 - 1) = Except.error "boom" :=
  ⟨(retryWithBackoff_attempt_bound (fun _ => (Except.error "boom" : Except String Unit))
      (fun _ _ => true) 2).1,
   (retryWithBackoff_attempt_bound (fun _ => (Except.error "boom" : Except String Unit))
      (fun _ _ => true) 2).2 "boom" rfl⟩

/-- C4: for every attempt `n ≥ 1` the computed delay equals
`min(maxDelay, initialDelay * backoffMultiplier^(n-1))` perturbed by that
capped delay times the jitter fraction times a value in `[-1, 1]`, floored
at zero; consequently it always lies within `[0, maxDelay * (1 + jitter)]`. -/
theorem calculateDelay_formula_and_bound (n : Nat) (o : RetryOptions) (rand : ℚ)
    (hn : 1 ≤ n) (hinit : 0 ≤ o.initialDelay) (hmax : 0 ≤ o.maxDelay)
    (hmult : 0 ≤ o.backoffMultiplier) (hjit : 0 ≤ o.jitter)
    (hr0 : 0 ≤ rand) (hr1 : rand ≤ 1) :
    calculateDelay n o rand =
      max 0 (min o.maxDelay (o.initialDelay * o.backoffMultiplier ^ (n - 1)) +
        min o.maxDelay (o.initialDelay * o.backoffMultiplier ^ (n - 1)) *
          o.jitter * (rand * 2 - 1)) ∧
    0 ≤ calculateDelay n o rand ∧
    calculateDelay n o rand ≤ o.maxDelay * (1 + o.jitter) := by
  have hexp : 0 ≤ o.initialDelay * o.backoffMultiplier ^ (n - 1) :=
    mul_nonneg hinit (pow_nonneg hmult _)
  have hc0 : 0 ≤ min (o.initialDelay * o.backoffMultiplier ^ (n - 1)) o.maxDelay :=
    le_min hexp hmax
  have hcm : min (o.initialDelay * o.backoffMultiplier ^ (n - 1)) o.maxDelay ≤
      o.maxDelay := min_le_right _ _
  refine ⟨?_, ?_, ?_⟩
  · unfold calculateDelay
    rw [min_comm]
  · unfold calculateDelay
    exact le_max_left 0 _
  · unfold calculateDelay
    set c := min (o.initialDelay * o.backoffMultiplier ^ (n - 1)) o.maxDelay with hc
    have hrhs : 0 ≤ o.maxDelay * (1 + o.jitter) := by nlinarith
    have hmain : c + c * o.jitter * (rand * 2 - 1) ≤ o.maxDelay * (1 + o.jitter) := by
      have h2r : rand * 2 - 1 ≤ 1 := by linarith
      have h1 : c * o.jitter * (rand * 2 - 1) ≤ c * o.jitter := by
        calc c * o.jitter * (rand * 2 - 1) ≤ c * o.jitter * 1 :=
              mul_le_mul_of_nonneg_left h2r (mul_nonneg hc0 hjit)
          _ = c * o.jitter := mul_one _
      have h2 : c * o.jitter ≤ o.maxDelay * o.jitter :=
        mul_le_mul_of_nonneg_right hcm hjit
      nlinarith
    exact max_le hrhs hmain

/-- C4 witness: the default options at attempt 2 with a concrete random
draw satisfy the bounds. -/
theorem calculateDelay_formula_and_bound_witness :
    0 ≤ calculateDelay 2 defaultRetryOptions (3 / 4) ∧
      calculateDelay 2 defaultRetryOptions (3 / 4) ≤
        defaultRetryOptions.maxDelay * (1 + defaultRetryOptions.jitter) :=
  (calculateDelay_formula_and_bound 2 defaultRetryOptions (3 / 4) (by norm_num)
    (by norm_num [defaultRetryOptions]) (by norm_num [defaultRetryOptions])
    (by norm_num [defaultRetryOptions]) (by norm_num [defaultRetryOptions])
    (by norm_num) (by norm_num)).2

/-! ### Error classification (C5) -/

/-- C5 counterexample: a fetch `TypeError` carrying HTTP status 401 is
classified as retryable by the default classifier, because the
`instanceof TypeError` network check runs before the status check. -/
theorem defaultShouldRetry_fetch401 :
    fetchTypeError401.status = some 401 ∧
      defaultShouldRetry fetchTypeError401 = true := by decide

/-- C5 amended: for every error carrying HTTP status 401 or 403, the
orchestrator's classifier returns false, the default classifier returns
false provided the error is not a fetch-class `TypeError` (which is
checked first), and under the orchestrator's classifier such an error is
propagated after a single invocation regardless of the retry budget. -/
theorem authErrors_never_retried (e : JsError)
    (h : e.status = some 401 ∨ e.status = some 403) :
    chatShouldRetry e = false ∧
    (¬(e.isTypeError = true ∧ strIncludesOpt e.message "fetch" = true) →
      defaultShouldRetry e = false) ∧
    ∀ (A : Type) (fn : Nat → Except JsError A) (maxRetries : Nat),
      fn 0 = .error e →
        retryWithBackoff fn (fun e2 _ => chatShouldRetry e2) maxRetries =
          (.error e, 1) := by
  have hcs : chatShouldRetry e = false := by
    rcases h with h | h <;> simp [chatShouldRetry, h]
  refine ⟨hcs, ?_, ?_⟩
  · intro hn
    have hcond : (e.isTypeError && strIncludesOpt e.message "fetch") = false := by
      cases hb : e.isTypeError <;> cases hs : strIncludesOpt e.message "fetch" <;>
        simp_all
    rcases h with h | h <;> simp [defaultShouldRetry, jsOr, h, hcond]
  · intro A fn maxRetries hfn
    cases maxRetries with
    | zero => simp [retryWithBackoff, retryLoop, hfn]
    | succ m => simp [retryWithBackoff, retryLoop, hfn, hcs]

/-- C5 witness: a plain 401 error is rejected by both classifiers and is
propagated after exactly one invocation with budget 5. -/
theorem authErrors_never_retried_witness :
    chatShouldRetry plainAuthError401 = false ∧
    defaultShouldRetry plainAuthError401 = false ∧
    retryWithBackoff (fun _ => (Except.error plainAuthError401 : Except JsError Unit))
        (fun e2 _ => chatShouldRetry e2) 5 = (.error plainAuthError401, 1) :=
  ⟨(authErrors_never_retried plainAuthError401 (Or.inl rfl)).1,
   (authErrors_never_retried plainAuthError401 (Or.inl rfl)).2.1 (by decide),
   (authErrors_never_retried plainAuthError401 (Or.inl rfl)).2.2 Unit
     (fun _ => Except.error plainAuthError401) 5 rfl⟩

/-! ### Message windowing (C9) -/

/-- C9 counterexample: with ten prior client messages, the message
sequence the server hands to the LLM has 20 entries, not at most 10 —
the two caller-supplied windows are concatenated without re-bounding. -/
theorem allMessages_exceeds_ten :
    ¬((allMessages tenMessages newUserMessage).length ≤ 10) := by decide

/-- C9 amended: each caller-supplied sequence is bounded to the most
recent 10 client messages, so the sequence passed to the LLM calls is
bounded by 20 (their concatenation), not by 10. -/
theorem allMessages_window_bounds (clientMessages : List ChatMessage)
    (userMessage : ChatMessage) :
    (conversationHistorySent clientMessages).length ≤ 10 ∧
    (recentMessages clientMessages userMessage).length ≤ 10 ∧
    (allMessages clientMessages userMessage).length ≤ 20 := by
  unfold allMessages conversationHistorySent recentMessages sliceLast10
  simp only [List.length_drop, List.length_append, List.length_cons,
    List.length_nil]
  omega

/-! ### Tool results in the follow-up call (C10) -/

/-- C10: every `tool_result` block included in the follow-up LLM call has
`is_error = false`, and when a tool handler threw, the block for that call
still carries `is_error = false` with the descriptive `Error:` content. -/
theorem toolResultBlocks_never_error (exec : ToolUse → Except String String)
    (tcs : List ToolUse) :
    (∀ b ∈ toolResultBlocks (tcs.map (dispatchToolCall exec)), b.is_error = false) ∧
    ∀ tc ∈ tcs, ∀ m, exec tc = .error m →
      (⟨tc.id, "Error: " ++ m, false⟩ : ToolResultBlock) ∈
        toolResultBlocks (tcs.map (dispatchToolCall exec)) := by
  constructor
  · intro b hb
    simp only [toolResultBlocks, List.mem_map] at hb
    obtain ⟨tr, _, rfl⟩ := hb
    rfl
  · intro tc htc m hm
    have hd : dispatchToolCall exec tc = ⟨tc.id, "Error: " ++ m⟩ := by
      simp [dispatchToolCall, hm]
    simp only [toolResultBlocks, List.mem_map]
    exact ⟨dispatchToolCall exec tc, ⟨tc, htc, rfl⟩, by rw [hd]⟩

/-- C10 witness: a throwing music-tool handler still yields an
`is_error = false` block with the error description. -/
theorem toolResultBlocks_never_error_witness :
    (⟨"t1", "Error: boom", false⟩ : ToolResultBlock) ∈
      toolResultBlocks (oneToolCall.map (dispatchToolCall failExec)) :=
  (toolResultBlocks_never_error failExec oneToolCall).2
    ⟨"t1", "get_music_data"⟩ (by decide) "boom" rfl

/-! ### Non-empty final output (C2) -/

/-- C2: the message a successful turn returns never trims to the empty
string, and whenever the content extracted from the LLM calls is empty or
whitespace-only, the fixed fallback apology is what gets returned. -/
theorem finalMessage_never_blank (llm : Nat → LLMResponse)
    (exec : ToolUse → Except String String) :
    jsTrim (finalMessage llm exec) ≠ "" ∧
    (jsTrim (runTurn llm exec).finalContent = "" →
      finalMessage llm exec = fallbackMessage) := by
  constructor
  · unfold finalMessage guardContent
    split
    · decide
    · rename_i h
      rw [not_or] at h
      exact h.2
  · intro h
    unfold finalMessage guardContent
    simp [h]

/-- C2 witness: an LLM turn whose only text is whitespace returns the
fallback apology, which does not trim to empty. -/
theorem finalMessage_never_blank_witness :
    finalMessage blankLLM okExec = fallbackMessage ∧
      jsTrim (finalMessage blankLLM okExec) ≠ "" :=
  ⟨(finalMessage_never_blank blankLLM okExec).2 (by decide),
   (finalMessage_never_blank blankLLM okExec).1⟩

/-! ### Single-hop tool use (C6) -/

/-- Filtering a response down to its text blocks does not change which
text block is found first. -/
theorem firstTextBlock_filter (l : LLMResponse) :
    firstTextBlock (l.filter isTextBlock) = firstTextBlock l := by
  induction l with
  | nil => rfl
  | cons b rest ih =>
    cases b with
    | text s =>
      simp [firstTextBlock, isTextBlock, List.filter_cons, List.findSome?_cons]
    | toolUse tu =>
      simp only [firstTextBlock, List.filter_cons, isTextBlock,
        List.findSome?_cons] at ih ⊢
      simpa using ih

/-- Filtering a response down to its text blocks does not change which
truthy text is found first. -/
theorem firstTruthyText_filter (l : LLMResponse) :
    firstTruthyText (l.filter isTextBlock) = firstTruthyText l := by
  induction l with
  | nil => rfl
  | cons b rest ih =>
    cases b with
    | text s =>
      by_cases hs : s = ""
      · simpa [firstTruthyText, isTextBlock, List.filter_cons,
          List.findSome?_cons, hs] using ih
      · simp [firstTruthyText, isTextBlock, List.filter_cons,
          List.findSome?_cons, hs]
    | toolUse tu =>
      simp only [firstTruthyText, List.filter_cons, isTextBlock,
        List.findSome?_cons] at ih ⊢
      simpa using ih

/-- Tool-call blocks in the follow-up response play no part in the final
text extraction. -/
theorem extractFollowUpText_filter (l : LLMResponse) :
    extractFollowUpText (l.filter isTextBlock) = extractFollowUpText l := by
  unfold extractFollowUpText
  rw [firstTextBlock_filter, firstTruthyText_filter]

/-- C6: when the first response contains tool calls the orchestrator makes
exactly two LLM calls (one follow-up); the turn's outcome is a function of
the first two oracle answers only; the tools executed are exactly the
first response's tool calls; deleting every tool-call block from the
follow-up response leaves the final answer unchanged — follow-up tool
calls are ignored; and the follow-up request itself contains the original
assistant response verbatim plus a user message carrying all ToolResults,
one `tool_result` block per requested call. -/
theorem single_follow_up (llm llm2 : Nat → LLMResponse)
    (exec : ToolUse → Except String String) (history : List ChatMessage) :
    ((runTurn llm exec).llmCalls =
      if (toolCallsOf (llm 0)).isEmpty then 1 else 2) ∧
    (toolCallsOf (llm 0) ≠ [] → llm2 0 = llm 0 → llm2 1 = llm 1 →
      runTurn llm2 exec = runTurn llm exec) ∧
    (toolCallsOf (llm 0) ≠ [] →
      (runTurn llm exec).toolResults =
        (toolCallsOf (llm 0)).map (dispatchToolCall exec)) ∧
    ((runTurn (fun n => if n = 1 then (llm 1).filter isTextBlock else llm n) exec).finalContent =
      (runTurn llm exec).finalContent) ∧
    (toolCallsOf (llm 0) ≠ [] →
      (⟨"assistant", MessageContent.blocks (llm 0)⟩ : ApiMessage) ∈
        followUpRequest history (llm 0) exec ∧
      (⟨"user", MessageContent.toolResultsContent
          (toolResultBlocks ((runTurn llm exec).toolResults))⟩ : ApiMessage) ∈
        followUpRequest history (llm 0) exec ∧
      ∀ tc ∈ toolCallsOf (llm 0), ∃ m ∈ followUpRequest history (llm 0) exec,
        ∃ bs, m.content = MessageContent.toolResultsContent bs ∧
          (⟨tc.id, (dispatchToolCall exec tc).content, false⟩ : ToolResultBlock) ∈ bs) := by
  refine ⟨?_, ?_, ?_, ?_, ?_⟩
  · unfold runTurn
    by_cases he : (toolCallsOf (llm 0)).isEmpty <;> simp [he]
  · intro hne h0 h1
    unfold runTurn
    rw [h0, h1]
  · intro hne
    have he : (toolCallsOf (llm 0)).isEmpty = false := by
      simpa [List.isEmpty_iff] using hne
    simp [runTurn, he]
  · unfold runTurn
    by_cases he : (toolCallsOf (llm 0)).isEmpty <;>
      simp [he, extractFollowUpText_filter]
  · intro hne
    have he : (toolCallsOf (llm 0)).isEmpty = false := by
      simpa [List.isEmpty_iff] using hne
    have hres : (runTurn llm exec).toolResults =
        (toolCallsOf (llm 0)).map (dispatchToolCall exec) := by
      simp [runTurn, he]
    refine ⟨?_, ?_, ?_⟩
    · simp [followUpRequest, followUpMessages]
    · rw [hres]
      simp [followUpRequest, followUpMessages]
    · intro tc htc
      have hid : (dispatchToolCall exec tc).tool_use_id = tc.id := by
        unfold dispatchToolCall
        cases exec tc <;> rfl
      refine ⟨⟨"user", MessageContent.toolResultsContent
          (toolResultBlocks ((toolCallsOf (llm 0)).map (dispatchToolCall exec)))⟩,
        ?_, toolResultBlocks ((toolCallsOf (llm 0)).map (dispatchToolCall exec)),
        rfl, ?_⟩
      · simp [followUpRequest, followUpMessages]
      · simp only [toolResultBlocks, List.mem_map]
        exact ⟨dispatchToolCall exec tc, ⟨tc, htc, rfl⟩, by rw [hid]⟩

/-- C6 witness: with a concrete tool-calling first response, an oracle
agreeing on the first two calls yields the identical outcome, the
executed tools are exactly the first round's, and the follow-up request
contains the original assistant response. -/
theorem single_follow_up_witness :
    runTurn llmB aboutExec = runTurn llmA aboutExec ∧
    (runTurn llmA aboutExec).toolResults =
      (toolCallsOf (llmA 0)).map (dispatchToolCall aboutExec) ∧
    (⟨"assistant", MessageContent.blocks (llmA 0)⟩ : ApiMessage) ∈
      followUpRequest [⟨"user", "hi"⟩] (llmA 0) aboutExec :=
  ⟨(single_follow_up llmA llmB aboutExec [⟨"user", "hi"⟩]).2.1
      (by decide) (by decide) (by decide),
   (single_follow_up llmA llmB aboutExec [⟨"user", "hi"⟩]).2.2.1 (by decide),
   ((single_follow_up llmA llmB aboutExec [⟨"user", "hi"⟩]).2.2.2.2 (by decide)).1⟩

/-! ### Streaming transport (C1) -/

/-- C1: a streamed request whose first LLM call exhausts its retries on
provider-overload errors terminates with a buffered 503 JSON body and
zero SSE frames — in particular no terminal `done`/`error` frame — because
the first call's overload catch does not check the streaming mode
(`api/chat.ts` lines 1326-1336), unlike the follow-up call's catch.  The
retry executor really was exhausted: the operation ran 4 times. -/
theorem streamed_overload_drops_terminal_frame :
    runHandler c1FailEnv = ⟨[], some 503⟩ ∧
    c1FailEnv.streaming = true ∧
    (chatRetry c1FailEnv.firstAttempts).2 = 4 := by decide

/-! ### Season-label normalization (C7) -/

/-- C7 counterexample: the two-digit label `"05-'06"` normalizes to
`"205-6"` — `parseInt` drops the leading zeros and the template literal
re-prints the numbers without padding — not to `"2005-06"`. -/
theorem normalizeSeason_leading_zero :
    normalizeSeason season0506 = "205-6" ∧
      normalizeSeason season0506 ≠ "2005-06" := by decide

/-- No digit character is the apostrophe. -/
theorem digitChar_beq_apos : ∀ t : Fin 10, (digitChar t == apos) = false := by decide

/-- Every `digitChar` is a digit. -/
theorem digitChar_isDigit : ∀ t : Fin 10, (digitChar t).isDigit = true := by decide

/-- `digitVal` inverts `digitChar`. -/
theorem digitVal_digitChar : ∀ t : Fin 10, digitVal (digitChar t) = t.val := by decide

/-- `Nat.repr` of a two-digit number prints its two digits. -/
theorem repr_two_digit : ∀ p q : Fin 10, p.val ≠ 0 →
    Nat.repr (10 * p.val + q.val) = String.mk [digitChar p, digitChar q] := by decide

/-- The label built from four digit characters contains the apostrophe. -/
theorem seasonLabel_contains_apos (p q r s : Fin 10) :
    (String.mk [digitChar p, digitChar q, '-', apos, digitChar r,
      digitChar s]).toList.contains apos = true := by
  have h1 : (apos == apos) = true := by decide
  simp [String.toList, List.contains, digitChar_beq_apos, h1]

/-- The regex matcher on a four-digit label captures the two digit pairs. -/
theorem findSeasonMatch_label (p q r s : Fin 10) :
    findSeasonMatch
        [digitChar p, digitChar q, '-', apos, digitChar r, digitChar s] =
      some ([digitChar p, digitChar q], [digitChar r, digitChar s]) := by
  have hdash : ('-').isDigit = false := by decide
  have hap : (apos == apos) = true := by decide
  unfold findSeasonMatch matchSeasonAt
  simp [List.takeWhile, digitChar_isDigit, hdash, hap]

/-- `parseInt` of a two-digit-character list. -/
theorem digitsToNat_pair (p q : Fin 10) :
    digitsToNat [digitChar p, digitChar q] = 10 * p.val + q.val := by
  simp [digitsToNat, digitVal_digitChar]

/-- C7 amended: every label of the form `YY-'YY` whose two-digit parts do
not start with `0` normalizes to `20YY-YY`; in particular `"24-'25"`
normalizes to `"2024-25"`. -/
theorem normalizeSeason_two_digit :
    (∀ p q r s : Fin 10, p.val ≠ 0 → r.val ≠ 0 →
      normalizeSeason
          (String.mk [digitChar p, digitChar q, '-', apos, digitChar r, digitChar s]) =
        String.mk ['2', '0', digitChar p, digitChar q, '-', digitChar r, digitChar s]) ∧
    normalizeSeason season2425 = "2024-25" := by
  constructor
  · intro p q r s hp hr
    unfold normalizeSeason
    rw [if_pos]
    · rw [show (String.mk [digitChar p, digitChar q, '-', apos, digitChar r,
          digitChar s]).toList =
            [digitChar p, digitChar q, '-', apos, digitChar r, digitChar s] from rfl,
        findSeasonMatch_label]
      show "20" ++ (digitsToNat [digitChar p, digitChar q]).repr ++ "-" ++
          (digitsToNat [digitChar r, digitChar s]).repr =
        String.mk ['2', '0', digitChar p, digitChar q, '-', digitChar r, digitChar s]
      rw [digitsToNat_pair, digitsToNat_pair, repr_two_digit p q hp,
        repr_two_digit r s hr]
      rfl
    · exact seasonLabel_contains_apos p q r s
  · decide

/-- C7 witness: the general statement applied to the digits of `"24-'25"`. -/
theorem normalizeSeason_two_digit_witness :
    normalizeSeason
        (String.mk [digitChar 2, digitChar 4, '-', apos, digitChar 2, digitChar 5]) =
      String.mk ['2', '0', digitChar 2, digitChar 4, '-', digitChar 2, digitChar 5] :=
  normalizeSeason_two_digit.1 2 4 2 5 (by decide) (by decide)

/-! ### Most-frequent location (C8) -/

/-- Membership in the first-occurrence list is membership in the list. -/
theorem mem_firstOccurrences (a : String) :
    ∀ locs : List String, a ∈ firstOccurrences locs ↔ a ∈ locs := by
  intro locs
  induction locs with
  | nil => simp [firstOccurrences]
  | cons l rest ih =>
    by_cases ha : a = l <;>
      simp [firstOccurrences, List.mem_filter, ha, ih]

/-- The first-occurrence list has no duplicates. -/
theorem firstOccurrences_nodup :
    ∀ locs : List String, (firstOccurrences locs).Nodup := by
  intro locs
  induction locs with
  | nil => simp [firstOccurrences]
  | cons l rest ih =>
    refine List.Nodup.cons ?_ (ih.filter _)
    intro hmem
    exact absurd (List.of_mem_filter hmem) (by simp)

/-- Appending one element extends the first-occurrence list exactly when
the element is new. -/
theorem firstOccurrences_append_single (locs : List String) (a : String) :
    firstOccurrences (locs ++ [a]) =
      if a ∈ locs then firstOccurrences locs
      else firstOccurrences locs ++ [a] := by
  induction locs with
  | nil => simp [firstOccurrences]
  | cons l rest ih =>
    simp only [List.cons_append, firstOccurrences, List.append_eq]
    rw [ih]
    by_cases ha : a ∈ rest
    · rw [if_pos ha, if_pos (List.mem_cons_of_mem l ha)]
    · rw [if_neg ha]
      by_cases hal : a = l
      · subst hal
        rw [if_pos (List.mem_cons_self a rest), List.filter_append]
        simp
      · rw [if_neg (by simp [hal, ha] : a ∉ l :: rest), List.filter_append]
        simp [hal]

/-- `bumpCount` on a keyed map over duplicate-free keys: bump the matching
key in place, or append a fresh `(a, 1)` entry. -/
theorem bumpCount_map (L : List String) (f : String → Nat) (a : String)
    (hnd : L.Nodup) :
    bumpCount (L.map fun l => (l, f l)) a =
      if a ∈ L then L.map fun l => (l, if l = a then f l + 1 else f l)
      else (L.map fun l => (l, f l)) ++ [(a, 1)] := by
  induction L with
  | nil => simp [bumpCount]
  | cons l rest ih =>
    have hlrest : l ∉ rest := (List.nodup_cons.mp hnd).1
    have hnd2 : rest.Nodup := (List.nodup_cons.mp hnd).2
    simp only [List.map_cons, bumpCount]
    by_cases hla : l = a
    · subst hla
      have hmap : (rest.map fun l2 => (l2, if l2 = l then f l2 + 1 else f l2)) =
          rest.map fun l2 => (l2, f l2) := by
        apply List.map_congr_left
        intro l2 hl2
        have : l2 ≠ l := fun h => hlrest (h ▸ hl2)
        simp [this]
      simp [hmap]
    · rw [if_neg hla, ih hnd2]
      by_cases ha : a ∈ rest
      · simp [ha, hla, Ne.symm hla]
      · have : ¬(a = l ∨ a ∈ rest) := by
          rintro (h | h)
          · exact hla h.symm
          · exact ha h
        simp [ha, hla, Ne.symm hla, this]

/-- One `forEach` step of the count loop corresponds to appending the
entry's location to the processed prefix. -/
theorem countTable_append_single (locs : List String) (a : String) :
    countTable (locs ++ [a]) = bumpCount (countTable locs) a := by
  unfold countTable
  rw [bumpCount_map _ _ _ (firstOccurrences_nodup locs),
    firstOccurrences_append_single]
  by_cases ha : a ∈ locs
  · have ha2 : a ∈ firstOccurrences locs := (mem_firstOccurrences a locs).mpr ha
    rw [if_pos ha, if_pos ha2]
    apply List.map_congr_left
    intro l hl
    by_cases hla : l = a <;>
      simp [hla, List.count_append, List.count_singleton]
  · have ha2 : a ∉ firstOccurrences locs :=
      fun h => ha ((mem_firstOccurrences a locs).mp h)
    rw [if_neg ha, if_neg ha2, List.map_append]
    congr 1
    · apply List.map_congr_left
      intro l hl
      have hl2 : l ∈ locs := (mem_firstOccurrences l locs).mp hl
      have hla : l ≠ a := fun h => ha (h ▸ hl2)
      simp [List.count_append, List.count_singleton, hla]
    · have hz : locs.count a = 0 := List.count_eq_zero.mpr ha
      simp [List.count_append, List.count_singleton, hz]

/-- The fold underlying `buildCounts`, generalized over the processed
prefix. -/
theorem buildCounts_from (suffix : List String) :
    ∀ pre : List String,
      List.foldl bumpCount (countTable pre) suffix = countTable (pre ++ suffix) := by
  induction suffix with
  | nil => intro pre; simp
  | cons a suffix ih =>
    intro pre
    rw [List.foldl_cons, ← countTable_append_single, ih (pre ++ [a])]
    simp

/-- The `locationCount` object is exactly: locations in first-encounter
order, each with its occurrence count. -/
theorem buildCounts_eq (locs : List String) : buildCounts locs = countTable locs := by
  have h := buildCounts_from locs []
  simpa [buildCounts, countTable, firstOccurrences] using h

/-- When no key is an array index, `Object.entries` preserves insertion
order. -/
theorem jsObjectEntries_id (l : List (String × Nat))
    (h : ∀ kv ∈ l, isArrayIndex kv.1 = false) : jsObjectEntries l = l := by
  unfold jsObjectEntries
  have h1 : l.filter (fun kv => isArrayIndex kv.1) = [] :=
    List.filter_eq_nil_iff.mpr fun kv hkv => by simp [h kv hkv]
  have h2 : l.filter (fun kv => !isArrayIndex kv.1) = l :=
    List.filter_eq_self.mpr fun kv hkv => by simp [h kv hkv]
  rw [h1, h2]
  rfl

/-- The head of the stable descending-count sort is the first entry with
maximal count. -/
theorem head_sortByCountDesc :
    ∀ l : List (String × Nat),
      (sortByCountDesc l).head? = firstMaxBy (fun kv => kv.2) l := by
  intro l
  induction l with
  | nil => rfl
  | cons x xs ih =>
    simp only [sortByCountDesc, firstMaxBy]
    cases hs : sortByCountDesc xs with
    | nil =>
      rw [hs] at ih
      rw [← ih]
      simp [insertDescByCount]
    | cons y ys =>
      rw [hs] at ih
      rw [← ih]
      by_cases h : y.2 ≤ x.2
      · have : ¬x.2 < y.2 := by omega
        simp [insertDescByCount, h, this]
      · have : x.2 < y.2 := by omega
        simp [insertDescByCount, h, this]

/-- `firstMaxBy` on a keyed map projects down to `firstMaxBy` on the keys. -/
theorem firstMaxBy_map (L : List String) (f : String → Nat) :
    firstMaxBy (fun kv => kv.2) (L.map fun l => (l, f l)) =
      (firstMaxBy f L).map fun l => (l, f l) := by
  induction L with
  | nil => rfl
  | cons l rest ih =>
    simp only [List.map_cons, firstMaxBy, ih]
    cases h : firstMaxBy f rest with
    | none => simp
    | some b => by_cases hb : f l < f b <;> simp [hb]

/-- `firstMaxBy` finds an element of a non-empty list. -/
theorem firstMaxBy_isSome {α : Type} (f : α → Nat) :
    ∀ l : List α, l ≠ [] → (firstMaxBy f l).isSome = true := by
  intro l hl
  cases l with
  | nil => exact absurd rfl hl
  | cons a rest =>
    simp only [firstMaxBy]
    cases firstMaxBy f rest with
    | none => rfl
    | some b => by_cases hb : f a < f b <;> simp [hb]

/-- C8 counterexample: with the numeric-string locations `"2"` then
`"1"` (one entry each) the metric returns `("1", 1)` — `Object.entries`
enumerates array-index keys in ascending numeric order, not insertion
order — while the first-encountered tie-winner is `"2"`. -/
theorem mostCommonLocation_numeric_keys :
    mostCommonLocation numericLocEntries = some ("1", 1) ∧
    specMostFrequentLocation numericLocEntries = some ("2", 1) ∧
    mostCommonLocation numericLocEntries ≠ specMostFrequentLocation numericLocEntries := by
  decide

/-- C8 amended: for every non-empty entry list none of whose location
names is an array-index string, the metric returns the location with the
greatest occurrence count, ties broken in favour of the location first
encountered in entry order; in particular `[(d1,"A"),(d2,"B"),(d3,"A")]`
yields `("A", 2)`. -/
theorem mostCommonLocation_first_encounter :
    (∀ entries : List SnowEntry, entries ≠ [] →
      (∀ e ∈ entries, isArrayIndex e.location = false) →
      mostCommonLocation entries = specMostFrequentLocation entries ∧
        (mostCommonLocation entries).isSome = true) ∧
    mostCommonLocation exampleABA = some ("A", 2) ∧
    specMostFrequentLocation exampleABA = some ("A", 2) := by
  refine ⟨?_, by decide, by decide⟩
  intro entries hne hloc
  have hjs : ∀ kv ∈ buildCounts (entries.map SnowEntry.location),
      isArrayIndex kv.1 = false := by
    intro kv hkv
    rw [buildCounts_eq] at hkv
    unfold countTable at hkv
    obtain ⟨l, hl, rfl⟩ := List.mem_map.mp hkv
    have hl2 : l ∈ entries.map SnowEntry.location :=
      (mem_firstOccurrences l (entries.map SnowEntry.location)).mp hl
    obtain ⟨e, he, rfl⟩ := List.mem_map.mp hl2
    exact hloc e he
  have hmc : mostCommonLocation entries = specMostFrequentLocation entries := by
    unfold mostCommonLocation specMostFrequentLocation
    rw [buildCounts_eq, jsObjectEntries_id _ (buildCounts_eq _ ▸ hjs),
      head_sortByCountDesc]
    unfold countTable
    rw [firstMaxBy_map]
  refine ⟨hmc, ?_⟩
  rw [hmc]
  unfold specMostFrequentLocation
  have hlocs : entries.map SnowEntry.location ≠ [] := by
    cases entries with
    | nil => exact absurd rfl hne
    | cons e rest => simp
  have hfo : firstOccurrences (entries.map SnowEntry.location) ≠ [] := by
    cases h : entries.map SnowEntry.location with
    | nil => exact absurd h hlocs
    | cons l rest => simp [firstOccurrences]
  simp [Option.isSome_map, firstMaxBy_isSome _ _ hfo]

/-- C8 witness: the amended statement applied to the example entries. -/
theorem mostCommonLocation_first_encounter_witness :
    mostCommonLocation exampleABA = specMostFrequentLocation exampleABA ∧
      (mostCommonLocation exampleABA).isSome = true :=
  mostCommonLocation_first_encounter.1 exampleABA (by decide) (by decide)

end Site
